import Mathlib

/-!
A shallow embedding of the go-anthropic client layer: the dual-backend
request builder (`Client.newRequest`, `Client.fullURL`), the streaming
wrapper (`Client.newStreamRequest`), the dispatcher (`Client.sendRequest`),
the error decoder (`Client.handlerRequestError`) and the model translation
table (`translateVertexModel`), together with theorems checking the
specification against these definitions.

Machine integers do not occur; HTTP status codes are `Nat`.  Effectful
pieces of the original (the HTTP transport, JSON (de)serialization) enter
as explicit parameters or as spec-modelled stand-ins, so that every
definition stays executable.
-/

/-! ## common.go: model constants and the translation table -/

def ModelClaudeInstant1Dot2 : String := "claude-instant-1.2"

def ModelClaude2Dot0 : String := "claude-2.0"

def ModelClaude2Dot1 : String := "claude-2.1"

def ModelClaude3Opus20240229 : String := "claude-3-opus-20240229"

def ModelClaude3Sonnet20240229 : String := "claude-3-sonnet-20240229"

def ModelClaude3Haiku20240307 : String := "claude-3-haiku-20240307"

/-- `translateVertexModel` from common.go: the switch over the three
mapped model identifiers, defaulting to the input itself. -/
def translateVertexModel (model : String) : String :=
  if model = ModelClaude3Haiku20240307 then "claude-3-haiku@20240307"
  else if model = ModelClaude3Opus20240229 then "claude-3-opus@20240229"
  else if model = ModelClaude3Sonnet20240229 then "claude-3-sonnet@20240229"
  else model

/-! ## Configuration and backend classification -/

/-- The client configuration.  The dynamic key resolver `apiKeyFunc` is
modelled by the value it would return (`none` when no resolver is set). -/
structure ClientConfig where
  apikey : String
  apiKeyFunc : Option String
  BaseURL : String
  APIVersion : String

/-- Modelled from the spec: the backend classifier `isVertexAI` lives in
the configuration file, which is not among the given sources.  The spec
says the gateway variant is recognized by a distinguishing leading marker
in the protocol-version string; the conventional marker is `vertex-`. -/
def isVertexAI (version : String) : Bool :=
  "vertex-".data.isPrefixOf version.data

structure Client where
  config : ClientConfig

def Client.IsVertexAI (c : Client) : Bool :=
  isVertexAI c.config.APIVersion

/-- Lines 146-149 of client.go: the resolver function, when present,
takes precedence over the static key. -/
def ClientConfig.resolveApiKey (cfg : ClientConfig) : String :=
  match cfg.apiKeyFunc with
  | some k => k
  | none => cfg.apikey

/-! ## Error envelope shapes -/

/-- Modelled from the spec: the inner `{type, message}` error payload
shared by both envelope shapes (declared outside the given sources). -/
structure APIError where
  type : String
  message : String
deriving DecidableEq

/-- Modelled from the spec: the standard error envelope; `error = none`
models an absent/null inner payload after unmarshalling. -/
structure ErrorResponse where
  error : Option APIError
deriving DecidableEq

/-- Modelled from the spec: the gateway (Vertex AI) error envelope,
structurally identical today but decoded independently. -/
structure VertexAIErrorResponse where
  error : Option APIError
deriving DecidableEq

/-- Modelled from the spec: stands in for `encoding/json.Unmarshal` of
the two error envelope shapes; a `.error` result is a parse failure with
its message. -/
structure JsonCodec where
  parseErrorResponse : String → Except String ErrorResponse
  parseVertexAIErrorResponse : String → Except String VertexAIErrorResponse

/-! ## HTTP requests, responses and headers -/

/-- `http.Header.Set`: replace any existing value for the key. -/
def headerSet (hs : List (String × String)) (k v : String) : List (String × String) :=
  hs.filter (fun p => p.1 != k) ++ [(k, v)]

/-- `http.Header.Get`: the value stored for the key, if any. -/
def headerGet (hs : List (String × String)) (k : String) : Option String :=
  (hs.find? (fun p => p.1 == k)).map (fun p => p.2)

structure HttpRequest where
  method : String
  url : String
  header : List (String × String)
  body : String
deriving DecidableEq

def HttpRequest.setHeader (r : HttpRequest) (k v : String) : HttpRequest :=
  { r with header := headerSet r.header k v }

def HttpRequest.getHeader (r : HttpRequest) (k : String) : Option String :=
  headerGet r.header k

structure HttpResponse where
  statusCode : Nat
  header : List (String × String)
  body : String
deriving DecidableEq

/-! ## Request bodies -/

/-- A request body: either one that implements the `VertexAISupport`
capability (model getter plus anthropic-version setter), or one that does
not.  `payload` stands for the remaining fields of the body. -/
inductive RequestBody where
  | vertexSupported (model : String) (anthropicVersion : Option String) (payload : String)
  | plain (payload : String)
deriving DecidableEq

def RequestBody.getModel : RequestBody → String
  | .vertexSupported model _ _ => model
  | .plain _ => ""

def RequestBody.setAnthropicVersion : RequestBody → String → RequestBody
  | .vertexSupported model _ payload, v => .vertexSupported model (some v) payload
  | .plain payload, _ => .plain payload

/-- Modelled from the spec: stands in for `encoding/json.Marshal` of the
request body; the exact wire format is irrelevant to the claims, only
that it is a function of the (possibly mutated) body. -/
def RequestBody.marshal : RequestBody → String
  | .vertexSupported model v payload =>
      "model=" ++ model ++ ";anthropic_version=" ++ v.getD "" ++ ";" ++ payload
  | .plain payload => payload

/-! ## Errors returned by the layer -/

/-- The two outcomes of `handlerRequestError` on a non-success status:
the raw fallback `RequestError {StatusCode, Err, RawBody}` or the wrapped
domain error carrying the parsed inner payload. -/
inductive APIResponseError where
  | requestError (statusCode : Nat) (err : Option String) (rawBody : String)
  | domainError (statusCode : Nat) (e : APIError)
deriving DecidableEq

/-- The error surface of `sendRequest`: transport failure, an error
response decoded by `handlerRequestError`, or a failure decoding a
success body into the result. -/
inductive SendError where
  | networkError (msg : String)
  | apiError (e : APIResponseError)
  | decodeError (msg : String)
deriving DecidableEq

/-- The result object of the caller: the `Response` capability (`SetHeader`)
plus the JSON-decoded value. -/
structure ResponseEnvelope (α : Type) where
  header : Option (List (String × String))
  value : Option α

/-! ## client.go: URL construction, request building, dispatch, errors -/

/-- `fullURL` from client.go lines 101-108: for the gateway variant the
path suffix loses its leading byte, a colon is put in its place and the
translated model is interpolated after the base URL; otherwise the suffix
is appended verbatim. -/
def Client.fullURL (c : Client) (suffixStr model : String) : String :=
  if isVertexAI c.config.APIVersion then
    c.config.BaseURL ++ "/" ++ translateVertexModel model ++ ":" ++ suffixStr.drop 1
  else
    c.config.BaseURL ++ suffixStr

def withBetaVersion (version : String) : HttpRequest → HttpRequest :=
  fun req => req.setHeader "anthropic-beta" version

/-- `newRequest` from client.go lines 118-163.  The Vertex branch first
performs the `VertexAISupport` capability check on a non-nil body (taking
the model from the body and injecting the anthropic version), then the
body is serialized, the URL built, base headers and authentication
headers set, and the caller-supplied setters applied last. -/
def Client.newRequest (c : Client) (method urlSuffix : String)
    (body : Option RequestBody) (requestSetters : List (HttpRequest → HttpRequest)) :
    Except String HttpRequest :=
  let modelAndBody : Except String (String × Option RequestBody) :=
    if isVertexAI c.config.APIVersion then
      match body with
      | none => Except.ok ("", none)
      | some (RequestBody.vertexSupported m v payload) =>
          Except.ok (m, some ((RequestBody.vertexSupported m v payload).setAnthropicVersion
            c.config.APIVersion))
      | some (RequestBody.plain _) =>
          Except.error "this call not supported by the Vertex AI API"
    else
      Except.ok ("", body)
  match modelAndBody with
  | Except.error e => Except.error e
  | Except.ok (model, body2) =>
      let reqBody : String :=
        match body2 with
        | none => ""
        | some b => b.marshal
      let req : HttpRequest :=
        { method := method, url := c.fullURL urlSuffix model, header := [], body := reqBody }
      let req := req.setHeader "Content-Type" "application/json; charset=utf-8"
      let req := req.setHeader "Accept" "application/json; charset=utf-8"
      let apiKey := c.config.resolveApiKey
      let req :=
        if isVertexAI c.config.APIVersion then
          req.setHeader "Authorization" ("Bearer " ++ apiKey)
        else
          (req.setHeader "X-Api-Key" apiKey).setHeader "Anthropic-Version" c.config.APIVersion
      Except.ok (requestSetters.foldl (fun r s => s r) req)

/-- `newStreamRequest` from client.go lines 165-177: delegate to
`newRequest`, then override the three streaming headers. -/
def Client.newStreamRequest (c : Client) (method urlSuffix : String)
    (body : Option RequestBody) (requestSetters : List (HttpRequest → HttpRequest)) :
    Except String HttpRequest :=
  match c.newRequest method urlSuffix body requestSetters with
  | Except.error e => Except.error e
  | Except.ok req =>
      Except.ok (((req.setHeader "Accept" "text/event-stream").setHeader
        "Cache-Control" "no-cache").setHeader "Connection" "keep-alive")

/-- `handlerRequestError` from client.go lines 61-99: on a status outside
[200, 400) the body is read and parsed — against the gateway shape for a
401 under the Vertex variant, against the standard shape otherwise; a
parse failure or an absent inner error yields the raw `RequestError`,
a populated inner error yields the wrapped domain error.  `none` models
the nil return on a success status. -/
def Client.handlerRequestError (c : Client) (codec : JsonCodec) (resp : HttpResponse) :
    Option APIResponseError :=
  if resp.statusCode < 200 ∨ 400 ≤ resp.statusCode then
    let bodyBytes := resp.body
    if c.IsVertexAI = true ∧ resp.statusCode = 401 then
      match codec.parseVertexAIErrorResponse bodyBytes with
      | Except.error e => some (.requestError resp.statusCode (some e) bodyBytes)
      | Except.ok errRes =>
          match errRes.error with
          | none => some (.requestError resp.statusCode none bodyBytes)
          | some e => some (.domainError resp.statusCode e)
    else
      match codec.parseErrorResponse bodyBytes with
      | Except.error e => some (.requestError resp.statusCode (some e) bodyBytes)
      | Except.ok errRes =>
          match errRes.error with
          | none => some (.requestError resp.statusCode none bodyBytes)
          | some e => some (.domainError resp.statusCode e)
  else
    none

/-- `sendRequest` from client.go lines 41-59.  The transport call is
modelled by its outcome `doResult`; JSON-decoding the success body into
the result object is modelled by `decodeResult`.  The pair returned is
the result object of the caller after the call together with the error
`sendRequest` returns (`none` for a nil error). -/
def Client.sendRequest {α : Type} (c : Client) (codec : JsonCodec)
    (decodeResult : String → Except String α)
    (doResult : Except String HttpResponse) (v : ResponseEnvelope α) :
    ResponseEnvelope α × Option SendError :=
  match doResult with
  | Except.error e => (v, some (.networkError e))
  | Except.ok res =>
      let v2 : ResponseEnvelope α := { v with header := some res.header }
      match c.handlerRequestError codec res with
      | some err => (v2, some (.apiError err))
      | none =>
          match decodeResult res.body with
          | Except.error e => (v2, some (.decodeError e))
          | Except.ok a => ({ v2 with value := some a }, none)

/-! ## Specification-side helpers -/

/-- `strEndsWith s t`: the character sequence of `t` is a suffix of that
of `s` — the ends-with notion used by the URL claims. -/
def strEndsWith (s t : String) : Bool :=
  t.data.isSuffixOf s.data

/-- The parse the error decoder consults for a given response: the
gateway shape for a 401 under the Vertex variant, the standard shape
otherwise, projected to the optional inner error. -/
def selectedErrorParse (c : Client) (codec : JsonCodec) (resp : HttpResponse) :
    Except String (Option APIError) :=
  if c.IsVertexAI = true ∧ resp.statusCode = 401 then
    (codec.parseVertexAIErrorResponse resp.body).map VertexAIErrorResponse.error
  else
    (codec.parseErrorResponse resp.body).map ErrorResponse.error

/-- The parse failure, if any, recorded by a parse outcome. -/
def parseFailure (r : Except String (Option APIError)) : Option String :=
  match r with
  | Except.error e => some e
  | Except.ok _ => none

/-! ## Concrete instances used by witnesses and counterexamples -/

def gatewayConfig : ClientConfig :=
  { apikey := "test-key", apiKeyFunc := none,
    BaseURL := "https://example.com", APIVersion := "vertex-2023-10-16" }

def gatewayClient : Client :=
  { config := gatewayConfig }

def directConfig : ClientConfig :=
  { apikey := "test-key", apiKeyFunc := none,
    BaseURL := "https://api.anthropic.com", APIVersion := "2023-06-01" }

def directClient : Client :=
  { config := directConfig }

/-- A sample codec recognizing two fixed bodies, for evaluating the
decoder theorems at concrete inputs. -/
def sampleCodec : JsonCodec where
  parseErrorResponse s :=
    if s = "standard-error-body" then
      Except.ok { error := some { type := "invalid_request_error", message := "bad request" } }
    else if s = "standard-empty-body" then
      Except.ok { error := none }
    else
      Except.error "invalid character"
  parseVertexAIErrorResponse s :=
    if s = "vertex-error-body" then
      Except.ok { error := some { type := "UNAUTHENTICATED", message := "invalid token" } }
    else
      Except.error "invalid character"

/-! ## Helper lemmas on headers and strings -/

theorem find?_filter_eq {α : Type} (p q : α → Bool) (l : List α)
    (h : ∀ x, p x = true → q x = true) : (l.filter q).find? p = l.find? p := by
  induction l with
  | nil => rfl
  | cons a t ih =>
    by_cases hq : q a = true
    · by_cases hp : p a = true
      · simp [List.filter_cons, hq, List.find?_cons, hp]
      · simp [List.filter_cons, hq, List.find?_cons, hp, ih]
    · have hp : p a = false := by
        cases hpa : p a
        · rfl
        · exact absurd (h a hpa) hq
      simp [List.filter_cons, hq, List.find?_cons, hp, ih]

theorem headerGet_set_same (hs : List (String × String)) (k v : String) :
    headerGet (headerSet hs k v) k = some v := by
  unfold headerGet headerSet
  rw [List.find?_append]
  have h1 : (hs.filter (fun p => p.1 != k)).find? (fun p => p.1 == k) = none := by
    rw [List.find?_eq_none]
    intro x hx
    have hmem := List.of_mem_filter hx
    simp only [bne_iff_ne, ne_eq] at hmem
    simp [hmem]
  rw [h1]
  simp [List.find?]

theorem headerGet_set_ne (hs : List (String × String)) (k k2 v : String) (h : k ≠ k2) :
    headerGet (headerSet hs k2 v) k = headerGet hs k := by
  unfold headerGet headerSet
  rw [List.find?_append]
  rw [find?_filter_eq (fun p => p.1 == k) (fun p => p.1 != k2) hs ?himp]
  case himp =>
    intro x hx
    simp only [beq_iff_eq] at hx
    simp [hx, h]
  have hbeq : (k2 == k) = false := by simp [Ne.symm h]
  have h2 : ([(k2, v)].find? (fun p => p.1 == k)) = none := by
    simp [List.find?, hbeq]
  rw [h2]
  simp

theorem getHeader_setHeader_same (r : HttpRequest) (k v : String) :
    (r.setHeader k v).getHeader k = some v :=
  headerGet_set_same r.header k v

theorem getHeader_setHeader_ne (r : HttpRequest) (k k2 v : String) (h : k ≠ k2) :
    (r.setHeader k2 v).getHeader k = r.getHeader k :=
  headerGet_set_ne r.header k k2 v h

theorem setHeader_url (r : HttpRequest) (k v : String) : (r.setHeader k v).url = r.url := rfl

theorem setHeader_method (r : HttpRequest) (k v : String) :
    (r.setHeader k v).method = r.method := rfl

theorem setHeader_body (r : HttpRequest) (k v : String) : (r.setHeader k v).body = r.body := rfl

theorem strEndsWith_append (a b : String) : strEndsWith (a ++ b) b = true := by
  unfold strEndsWith
  rw [String.data_append]
  exact (List.isSuffixOf_iff_suffix).mpr (List.suffix_append a.data b.data)

theorem drop_one_slash_append (rest : String) : ("/" ++ rest).drop 1 = rest := by
  apply String.ext
  rw [String.data_drop, String.data_append]
  rfl

/-! ## Claim C7: the model translation table -/

/-- C7: for every identifier in the translation table `translateVertexModel`
returns the mapped gateway-specific identifier, and for every identifier
absent from the table it returns the input unchanged; being a Lean
function it is total and never fails. -/
theorem translateVertexModel_table (m : String)
    (h : m ≠ ModelClaude3Haiku20240307 ∧ m ≠ ModelClaude3Opus20240229 ∧
      m ≠ ModelClaude3Sonnet20240229) :
    translateVertexModel m = m ∧
    translateVertexModel ModelClaude3Haiku20240307 = "claude-3-haiku@20240307" ∧
    translateVertexModel ModelClaude3Opus20240229 = "claude-3-opus@20240229" ∧
    translateVertexModel ModelClaude3Sonnet20240229 = "claude-3-sonnet@20240229" := by
  refine ⟨?_, by decide, by decide, by decide⟩
  simp [translateVertexModel, h.1, h.2.1, h.2.2]

/-- C7, witness: the identity property evaluated at `claude-2.1`, an
identifier absent from the table. -/
theorem translateVertexModel_table_witness :
    translateVertexModel ModelClaude2Dot1 = ModelClaude2Dot1 ∧
    translateVertexModel ModelClaude3Haiku20240307 = "claude-3-haiku@20240307" ∧
    translateVertexModel ModelClaude3Opus20240229 = "claude-3-opus@20240229" ∧
    translateVertexModel ModelClaude3Sonnet20240229 = "claude-3-sonnet@20240229" :=
  translateVertexModel_table ModelClaude2Dot1 (by decide)

/-! ## Claim C2: the gateway capability check on non-nil bodies -/

/-- C2: under the gateway variant, a non-nil body that does not implement
the `VertexAISupport` capability (model getter and anthropic-version
setter) makes `newRequest` return the configuration error instead of
building a request. -/
theorem newRequest_gateway_unsupported_body (c : Client) (method urlSuffix payload : String)
    (setters : List (HttpRequest → HttpRequest))
    (hv : isVertexAI c.config.APIVersion = true) :
    c.newRequest method urlSuffix (some (RequestBody.plain payload)) setters =
      Except.error "this call not supported by the Vertex AI API" := by
  simp [Client.newRequest, hv]

/-- C2, witness: the configuration error at a concrete gateway client and
a concrete capability-less body. -/
theorem newRequest_gateway_unsupported_body_witness :
    gatewayClient.newRequest "POST" "/v1/messages" (some (RequestBody.plain "x")) [] =
      Except.error "this call not supported by the Vertex AI API" :=
  newRequest_gateway_unsupported_body gatewayClient "POST" "/v1/messages" "x" [] (by decide)

/-! ## Claim C1: the gateway URL for suffix /v1/messages (corrected) -/

/-- C1, counterexample: with path suffix `/v1/messages` and model
`claude-3-haiku-20240307` the gateway URL is
`https://example.com/claude-3-haiku@20240307:v1/messages`, which does not
end with `claude-3-haiku@20240307:messages` as claimed: only the leading
slash of the suffix is replaced by a colon, the `v1/` segment stays. -/
theorem fullURL_gateway_messages_counterexample :
    strEndsWith (gatewayClient.fullURL "/v1/messages" "claude-3-haiku-20240307")
      "claude-3-haiku@20240307:messages" = false := by
  decide

/-- C1, amended: for a gateway-mode client, the URL built for path suffix
`/v1/messages` and model `claude-3-haiku-20240307` ends with
`claude-3-haiku@20240307:v1/messages` (leading slash replaced by a colon,
translated model interpolated between base URL and remainder of path). -/
theorem fullURL_gateway_messages_amended (c : Client)
    (hv : isVertexAI c.config.APIVersion = true) :
    strEndsWith (c.fullURL "/v1/messages" ModelClaude3Haiku20240307)
      "claude-3-haiku@20240307:v1/messages" = true := by
  unfold Client.fullURL
  rw [hv]
  simp only [if_true]
  rw [String.append_assoc, String.append_assoc]
  have h3 : translateVertexModel ModelClaude3Haiku20240307 ++ (":" ++ "/v1/messages".drop 1) =
      "claude-3-haiku@20240307:v1/messages" := rfl
  rw [h3]
  exact strEndsWith_append _ _

/-- C1, witness for the amended claim: the concrete gateway client. -/
theorem fullURL_gateway_messages_amended_witness :
    strEndsWith (gatewayClient.fullURL "/v1/messages" ModelClaude3Haiku20240307)
      "claude-3-haiku@20240307:v1/messages" = true :=
  fullURL_gateway_messages_amended gatewayClient (by decide)

/-! ## Claim C10: gateway request with a nil body -/

/-- C10: for a gateway-mode client a nil body passes `newRequest` without
a configuration error — the capability check only runs on non-nil bodies —
and the model interpolated into the URL is the empty identifier, so the
URL is the base URL, then `/:`, then the path suffix without its leading
slash. -/
theorem newRequest_gateway_nil_body (c : Client) (method rest : String)
    (hv : isVertexAI c.config.APIVersion = true) :
    ∃ req, c.newRequest method ("/" ++ rest) none [] = Except.ok req ∧
      req.url = c.config.BaseURL ++ "/:" ++ rest := by
  simp only [Client.newRequest, hv, if_true, List.foldl_nil]
  refine ⟨_, rfl, ?_⟩
  show c.fullURL ("/" ++ rest) "" = c.config.BaseURL ++ "/:" ++ rest
  unfold Client.fullURL
  rw [hv]
  simp only [if_true]
  rw [drop_one_slash_append]
  have h1 : translateVertexModel "" = "" := rfl
  rw [h1, String.append_empty, String.append_assoc c.config.BaseURL]
  exact congrArg (fun s => s ++ rest) rfl

/-- C10, witness: the concrete gateway client with suffix `/v1/messages`. -/
theorem newRequest_gateway_nil_body_witness :
    ∃ req, gatewayClient.newRequest "POST" ("/" ++ "v1/messages") none [] = Except.ok req ∧
      req.url = gatewayClient.config.BaseURL ++ "/:" ++ "v1/messages" :=
  newRequest_gateway_nil_body gatewayClient "POST" "v1/messages" (by decide)

/-! ## Claim C6: direct-mode URL and headers -/

/-- C6: for a direct-mode client `newRequest` builds the URL as the base
URL concatenated with the path suffix verbatim, sets both the `X-Api-Key`
header (to the resolved key) and the explicit `Anthropic-Version` header,
and `fullURL` ignores the model identifier entirely in this mode. -/
theorem newRequest_direct (c : Client) (method suffixStr : String)
    (body : Option RequestBody) (hd : isVertexAI c.config.APIVersion = false) :
    ∃ req, c.newRequest method suffixStr body [] = Except.ok req ∧
      req.url = c.config.BaseURL ++ suffixStr ∧
      req.getHeader "X-Api-Key" = some c.config.resolveApiKey ∧
      req.getHeader "Anthropic-Version" = some c.config.APIVersion ∧
      (∀ m m2 : String, c.fullURL suffixStr m = c.fullURL suffixStr m2) := by
  simp only [Client.newRequest, hd, Bool.false_eq_true, if_false, List.foldl_nil]
  refine ⟨_, rfl, ?_, ?_, ?_, ?_⟩
  · show (_ : HttpRequest).url = _
    rw [setHeader_url, setHeader_url, setHeader_url, setHeader_url]
    show c.fullURL suffixStr "" = _
    unfold Client.fullURL
    rw [hd]
    simp
  · rw [getHeader_setHeader_ne _ _ _ _ (by decide), getHeader_setHeader_same]
  · rw [getHeader_setHeader_same]
  · intro m m2
    unfold Client.fullURL
    rw [hd]
    simp

/-- C6, witness: the concrete direct client with suffix `/v1/messages`. -/
theorem newRequest_direct_witness :
    ∃ req, directClient.newRequest "POST" "/v1/messages" (some (RequestBody.plain "x")) [] =
        Except.ok req ∧
      req.url = directClient.config.BaseURL ++ "/v1/messages" ∧
      req.getHeader "X-Api-Key" = some directClient.config.resolveApiKey ∧
      req.getHeader "Anthropic-Version" = some directClient.config.APIVersion ∧
      (∀ m m2 : String, directClient.fullURL "/v1/messages" m =
        directClient.fullURL "/v1/messages" m2) :=
  newRequest_direct directClient "POST" "/v1/messages" (some (RequestBody.plain "x")) (by decide)

/-! ## Claim C8: the streaming request builder -/

/-- C8: `newStreamRequest` produces, for the same inputs, the request
`newRequest` produces except that the `Accept`, `Cache-Control` and
`Connection` headers are overridden to the streaming values; method, URL,
body and every other header (in particular the authentication headers)
are unchanged. -/
theorem newStreamRequest_delegates (c : Client) (method urlSuffix : String)
    (body : Option RequestBody) (setters : List (HttpRequest → HttpRequest))
    (req : HttpRequest) (h : c.newRequest method urlSuffix body setters = Except.ok req) :
    ∃ sreq, c.newStreamRequest method urlSuffix body setters = Except.ok sreq ∧
      sreq.method = req.method ∧ sreq.url = req.url ∧ sreq.body = req.body ∧
      sreq.getHeader "Accept" = some "text/event-stream" ∧
      sreq.getHeader "Cache-Control" = some "no-cache" ∧
      sreq.getHeader "Connection" = some "keep-alive" ∧
      (∀ k : String, k ≠ "Accept" → k ≠ "Cache-Control" → k ≠ "Connection" →
        sreq.getHeader k = req.getHeader k) := by
  unfold Client.newStreamRequest
  rw [h]
  refine ⟨_, rfl, ?_, ?_, ?_, ?_, ?_, ?_, ?_⟩
  · rw [setHeader_method, setHeader_method, setHeader_method]
  · rw [setHeader_url, setHeader_url, setHeader_url]
  · rw [setHeader_body, setHeader_body, setHeader_body]
  · rw [getHeader_setHeader_ne _ _ _ _ (by decide),
      getHeader_setHeader_ne _ _ _ _ (by decide), getHeader_setHeader_same]
  · rw [getHeader_setHeader_ne _ _ _ _ (by decide), getHeader_setHeader_same]
  · rw [getHeader_setHeader_same]
  · intro k h1 h2 h3
    rw [getHeader_setHeader_ne _ _ _ _ h3, getHeader_setHeader_ne _ _ _ _ h2,
      getHeader_setHeader_ne _ _ _ _ h1]

/-- The request the direct client builds for a POST to `/v1/messages`
with a nil body; used to evaluate the streaming claim concretely. -/
def directBaseRequest : HttpRequest :=
  { method := "POST", url := "https://api.anthropic.com/v1/messages",
    header := [("Content-Type", "application/json; charset=utf-8"),
               ("Accept", "application/json; charset=utf-8"),
               ("X-Api-Key", "test-key"),
               ("Anthropic-Version", "2023-06-01")],
    body := "" }

/-- C8, witness: the delegation property evaluated at the concrete direct
client, whose non-streaming request is `directBaseRequest`. -/
theorem newStreamRequest_delegates_witness :
    ∃ sreq, directClient.newStreamRequest "POST" "/v1/messages" none [] = Except.ok sreq ∧
      sreq.method = directBaseRequest.method ∧ sreq.url = directBaseRequest.url ∧
      sreq.body = directBaseRequest.body ∧
      sreq.getHeader "Accept" = some "text/event-stream" ∧
      sreq.getHeader "Cache-Control" = some "no-cache" ∧
      sreq.getHeader "Connection" = some "keep-alive" ∧
      (∀ k : String, k ≠ "Accept" → k ≠ "Cache-Control" → k ≠ "Connection" →
        sreq.getHeader k = directBaseRequest.getHeader k) :=
  newStreamRequest_delegates directClient "POST" "/v1/messages" none [] directBaseRequest
    rfl

/-! ## Claim C3: gateway 401 decoded against the gateway shape -/

/-- C3: a 401 response under the gateway variant whose body parses as the
gateway error shape with a populated inner error is decoded to the
structured domain error carrying the status code and the parsed payload,
not to the raw fallback. -/
theorem handler_gateway_401_domain (c : Client) (codec : JsonCodec) (resp : HttpResponse)
    (e : APIError) (hv : c.IsVertexAI = true) (hs : resp.statusCode = 401)
    (hp : codec.parseVertexAIErrorResponse resp.body = Except.ok { error := some e }) :
    c.handlerRequestError codec resp = some (.domainError 401 e) := by
  unfold Client.handlerRequestError
  rw [hs]
  rw [if_pos (by omega), if_pos ⟨hv, rfl⟩, hp]

/-- A concrete 401 response whose body `sampleCodec` parses as the
gateway error shape. -/
def vertex401Response : HttpResponse :=
  { statusCode := 401, header := [], body := "vertex-error-body" }

/-- C3, witness: the concrete gateway client and 401 response. -/
theorem handler_gateway_401_domain_witness :
    gatewayClient.handlerRequestError sampleCodec vertex401Response =
      some (.domainError 401 { type := "UNAUTHENTICATED", message := "invalid token" }) :=
  handler_gateway_401_domain gatewayClient sampleCodec vertex401Response
    { type := "UNAUTHENTICATED", message := "invalid token" } (by decide) rfl rfl

/-! ## Claim C4: the raw fallback on parse failure or absent inner error -/

/-- C4: on any non-success status, when the branch-relevant parse of the
body fails or succeeds with an absent/null inner error, the decoder
returns the raw `RequestError` carrying the original status code, the
original body verbatim, and the parse failure when there was one. -/
theorem handler_raw_fallback (c : Client) (codec : JsonCodec) (resp : HttpResponse)
    (hs : resp.statusCode < 200 ∨ 400 ≤ resp.statusCode)
    (hp : ∀ e : APIError, selectedErrorParse c codec resp ≠ Except.ok (some e)) :
    c.handlerRequestError codec resp =
      some (.requestError resp.statusCode (parseFailure (selectedErrorParse c codec resp))
        resp.body) := by
  unfold Client.handlerRequestError
  unfold selectedErrorParse at hp ⊢
  rw [if_pos hs]
  by_cases hb : c.IsVertexAI = true ∧ resp.statusCode = 401
  · simp only [if_pos hb] at hp ⊢
    cases hpr : codec.parseVertexAIErrorResponse resp.body with
    | error e => simp [hpr, parseFailure, Except.map]
    | ok errRes =>
        cases herr : errRes.error with
        | none => simp [hpr, herr, parseFailure, Except.map]
        | some e =>
            exfalso
            apply hp e
            rw [hpr]
            simp [Except.map, herr]
  · simp only [if_neg hb] at hp ⊢
    cases hpr : codec.parseErrorResponse resp.body with
    | error e => simp [hpr, parseFailure, Except.map]
    | ok errRes =>
        cases herr : errRes.error with
        | none => simp [hpr, herr, parseFailure, Except.map]
        | some e =>
            exfalso
            apply hp e
            rw [hpr]
            simp [Except.map, herr]

/-- A concrete 500 response whose body `sampleCodec` cannot parse. -/
def raw500Response : HttpResponse :=
  { statusCode := 500, header := [], body := "not json" }

/-- C4, witness: the concrete direct client and unparseable 500 response;
the decoder returns the raw fallback with the original bytes and the
parse failure. -/
theorem handler_raw_fallback_witness :
    directClient.handlerRequestError sampleCodec raw500Response =
      some (.requestError 500 (some "invalid character") "not json") :=
  handler_raw_fallback directClient sampleCodec raw500Response (by decide)
    (fun e h => by
      rw [show selectedErrorParse directClient sampleCodec raw500Response =
        Except.error "invalid character" from rfl] at h
      exact Except.noConfusion h)

/-! ## Claim C9: the success range of the status check -/

theorem handler_none_iff (c : Client) (codec : JsonCodec) (resp : HttpResponse) :
    c.handlerRequestError codec resp = none ↔
      (200 ≤ resp.statusCode ∧ resp.statusCode ≤ 399) := by
  unfold Client.handlerRequestError
  by_cases hcond : resp.statusCode < 200 ∨ 400 ≤ resp.statusCode
  · rw [if_pos hcond]
    constructor
    · intro hnone
      exfalso
      revert hnone
      by_cases hb : c.IsVertexAI = true ∧ resp.statusCode = 401
      · simp only [if_pos hb]
        cases codec.parseVertexAIErrorResponse resp.body with
        | error e => simp
        | ok errRes => cases herr : errRes.error <;> simp [herr]
      · simp only [if_neg hb]
        cases codec.parseErrorResponse resp.body with
        | error e => simp
        | ok errRes => cases herr : errRes.error <;> simp [herr]
    · intro hrange
      exfalso
      omega
  · rw [if_neg hcond]
    simp only [true_iff]
    omega

/-- C9: the error handler returns no error exactly for status codes from
200 through 399; on such a status `sendRequest` proceeds to decode the
body into the result, and on any other status it returns the error
result of the error decoder instead. -/
theorem handler_success_range {α : Type} (c : Client) (codec : JsonCodec)
    (resp : HttpResponse) (decodeResult : String → Except String α) (v : ResponseEnvelope α) :
    (c.handlerRequestError codec resp = none ↔
      (200 ≤ resp.statusCode ∧ resp.statusCode ≤ 399)) ∧
    (∀ err, c.handlerRequestError codec resp = some err →
      (c.sendRequest codec decodeResult (Except.ok resp) v).2 = some (.apiError err)) ∧
    (c.handlerRequestError codec resp = none → ∀ a, decodeResult resp.body = Except.ok a →
      (c.sendRequest codec decodeResult (Except.ok resp) v).2 = none ∧
      (c.sendRequest codec decodeResult (Except.ok resp) v).1.value = some a) := by
  refine ⟨handler_none_iff c codec resp, ?_, ?_⟩
  · intro err herr
    simp [Client.sendRequest, herr]
  · intro hnone a ha
    simp [Client.sendRequest, hnone, ha]

/-- A concrete successful response. -/
def ok200Response : HttpResponse :=
  { statusCode := 200, header := [("request-id", "abc")], body := "42" }

/-- C9, witness: at the concrete direct client and a 200 response the
handler returns no error. -/
theorem handler_success_range_witness :
    directClient.handlerRequestError sampleCodec ok200Response = none :=
  (handler_success_range directClient sampleCodec ok200Response
    (fun s => Except.ok s.length) { header := none, value := none }).1.mpr (by decide)

/-! ## Claim C5: headers stored before the status check -/

/-- C5: for every received response `sendRequest` stores the response
headers into the result object of the caller, whatever the status code; in
particular a success-range status whose body fails to decode yields the
decode error while the headers are already populated. -/
theorem sendRequest_headers_first {α : Type} (c : Client) (codec : JsonCodec)
    (decodeResult : String → Except String α) (res : HttpResponse) (v : ResponseEnvelope α)
    (emsg : String) (h1 : 200 ≤ res.statusCode) (h2 : res.statusCode ≤ 399)
    (h3 : decodeResult res.body = Except.error emsg) :
    (∀ res2 : HttpResponse,
      (c.sendRequest codec decodeResult (Except.ok res2) v).1.header = some res2.header) ∧
    (c.sendRequest codec decodeResult (Except.ok res) v).2 = some (.decodeError emsg) ∧
    (c.sendRequest codec decodeResult (Except.ok res) v).1.header = some res.header := by
  have hstore : ∀ res2 : HttpResponse,
      (c.sendRequest codec decodeResult (Except.ok res2) v).1.header = some res2.header := by
    intro res2
    unfold Client.sendRequest
    cases hh : c.handlerRequestError codec res2 with
    | some err => simp [hh]
    | none =>
        cases hd : decodeResult res2.body with
        | error e => simp [hh, hd]
        | ok a => simp [hh, hd]
  refine ⟨hstore, ?_, hstore res⟩
  have hnone : c.handlerRequestError codec res = none :=
    (handler_none_iff c codec res).mpr ⟨h1, h2⟩
  simp [Client.sendRequest, hnone, h3]

/-- A concrete success-status response with a body the sample decoder
rejects. -/
def badBody200Response : HttpResponse :=
  { statusCode := 200, header := [("request-id", "xyz")], body := "oops" }

/-- C5, witness: the concrete direct client, a 200 response and a decoder
that fails on its body: the decode error is returned and the headers are
populated in the result object. -/
theorem sendRequest_headers_first_witness :
    (∀ res2 : HttpResponse,
      (directClient.sendRequest sampleCodec
        (fun _ => (Except.error "invalid json" : Except String Nat))
        (Except.ok res2) { header := none, value := none }).1.header = some res2.header) ∧
    (directClient.sendRequest sampleCodec
      (fun _ => (Except.error "invalid json" : Except String Nat))
      (Except.ok badBody200Response) { header := none, value := none }).2 =
        some (.decodeError "invalid json") ∧
    (directClient.sendRequest sampleCodec
      (fun _ => (Except.error "invalid json" : Except String Nat))
      (Except.ok badBody200Response) { header := none, value := none }).1.header =
        some badBody200Response.header :=
  sendRequest_headers_first directClient sampleCodec
    (fun _ => (Except.error "invalid json" : Except String Nat))
    badBody200Response { header := none, value := none } "invalid json"
    (by decide) (by decide) rfl
